import Mathlib

/-!
Shallow embedding of the bill-ingestion, normalization, caching, and voting
logic of the youthpolicypulse web application (src/app.py), together with
theorems settling the specification claims about it.

Python strings are modelled as Lean `String`; character-level operations
(lower-casing, stripping, substring search) work over `List Char`.
Python `None`-able values are `Option`; Python truthiness of strings,
lists, options and numbers is modelled explicitly where the code relies
on it.  Times are `Int` seconds (the code compares `time.time()`
differences against an integer TTL).
-/

namespace YPP

/-- Python `str.lower` restricted to the character level (`Char.toLower`),
applied pointwise, as `text.lower()` does. -/
def pyLower (l : List Char) : List Char := l.map Char.toLower

/-- Python `str.strip()`: drop whitespace from the front, then from the back. -/
def pyStrip (l : List Char) : List Char :=
  (((l.dropWhile Char.isWhitespace).reverse.dropWhile Char.isWhitespace)).reverse

/-- Python's `needle in haystack` substring test on character lists. -/
def occurs (needle : List Char) : List Char → Bool
  | [] => needle.isEmpty
  | c :: rest => needle.isPrefixOf (c :: rest) || occurs needle rest

/-- Python `str.lower` on a whole string: pointwise `Char.toLower` over the
underlying character list. -/
def pyLowerStr (s : String) : String := ⟨pyLower s.data⟩

/-- Python truthiness of a string: `''` is falsy, everything else truthy. -/
def pyTruthy (s : String) : Bool := s ≠ ""

/-- `d.get(key, default)` for an optional string field. -/
def pyGet (v : Option String) (default : String) : String :=
  match v with
  | none => default
  | some s => s

/-- Python `s.startswith(p)`: `p` is a character-level prefix of `s`. -/
def pyStartswith (s p : String) : Bool := p.data.isPrefixOf s.data

/-- Python slicing `s[n:]`: drop the first `n` characters. -/
def pySliceFrom (s : String) (n : Nat) : String := ⟨s.data.drop n⟩

/-- `CONGRESS_BASE_URL` (app.py line 319). -/
def CONGRESS_BASE_URL : String := "https://api.congress.gov/v3"

/-- `CACHE_DURATION = 1800` seconds (app.py line 360). -/
def CACHE_DURATION : Int := 1800

/-!
## Bill-identifier prefix parsing

`bill_detail` (app.py 2184-2210) and `get_bill_summary` (app.py 2294-2320)
share this `if/elif` chain, transcribed branch for branch in source order:
`hr` and `s` are tested before the multi-letter prefixes.
-/

/-- The prefix chain of `bill_detail` / `get_bill_summary`: given the
identifier part before the dash (e.g. `hr1234`), return
`(bill_type, bill_number)`. -/
def parse_bill_identifier (bill_identifier : String) : String × String :=
  if pyStartswith bill_identifier "hr" then ("hr", pySliceFrom bill_identifier 2)
  else if pyStartswith bill_identifier "s" then ("s", pySliceFrom bill_identifier 1)
  else if pyStartswith bill_identifier "hjres" then ("hjres", pySliceFrom bill_identifier 5)
  else if pyStartswith bill_identifier "sjres" then ("sjres", pySliceFrom bill_identifier 5)
  else if pyStartswith bill_identifier "hconres" then ("hconres", pySliceFrom bill_identifier 7)
  else if pyStartswith bill_identifier "sconres" then ("sconres", pySliceFrom bill_identifier 7)
  else if pyStartswith bill_identifier "hres" then ("hres", pySliceFrom bill_identifier 4)
  else if pyStartswith bill_identifier "sres" then ("sres", pySliceFrom bill_identifier 4)
  else (bill_identifier, "1")

/-- The parse used by `get_detailed_bills_for_page` (app.py 586-595): only
`hr` and `s` are recognised; anything else keeps the original record
(modelled as `none`). -/
def parse_bill_identifier_page (bill_identifier : String) : Option (String × String) :=
  if pyStartswith bill_identifier "hr" then some ("hr", pySliceFrom bill_identifier 2)
  else if pyStartswith bill_identifier "s" then some ("s", pySliceFrom bill_identifier 1)
  else none

/-!
## Topic classifier (`TOPIC_KEYWORDS`, `categorize_bill`, app.py 342-353, 897-920)
-/

/-- `TOPIC_KEYWORDS` (app.py 342-353), in Python dict insertion order. -/
def TOPIC_KEYWORDS : List (String × List String) :=
  [("education", ["education", "school", "university", "college", "student", "teacher",
      "learning", "academic", "campus", "scholarship", "degree", "curriculum", "classroom",
      "textbook", "tuition", "enrollment"]),
   ("student_loans", ["student loan", "student debt", "federal student aid", "pell grant",
      "financial aid", "tuition", "borrower", "repayment", "forgiveness", "default",
      "interest rate"]),
   ("mental_health", ["mental health", "mental illness", "psychiatric", "therapy",
      "counseling", "depression", "anxiety", "suicide prevention", "behavioral",
      "psychological", "wellness", "crisis", "treatment"]),
   ("youth_voting", ["youth voting", "voting age", "student voting", "campus voting",
      "voter registration", "election access", "democracy", "civic", "participation",
      "franchise"]),
   ("environment", ["environment", "climate", "green energy", "renewable", "carbon",
      "emissions", "pollution", "conservation", "sustainability", "clean air", "water",
      "wildlife", "ecosystem", "renewable energy", "solar", "wind"]),
   ("healthcare", ["health", "healthcare", "medical", "hospital", "doctor", "nurse",
      "insurance", "medicare", "medicaid", "pharmaceutical", "drug", "prescription",
      "treatment", "patient"]),
   ("economy", ["economy", "economic", "business", "job", "employment", "unemployment",
      "wage", "salary", "income", "tax", "budget", "deficit", "inflation", "recession"]),
   ("technology", ["technology", "tech", "digital", "internet", "cyber", "data", "privacy",
      "artificial intelligence", "ai", "computer", "software", "hardware", "innovation"]),
   ("immigration", ["immigration", "immigrant", "border", "visa", "citizenship", "asylum",
      "refugee", "deportation", "naturalization"]),
   ("criminal_justice", ["criminal", "justice", "police", "law enforcement", "prison",
      "jail", "incarceration", "rehabilitation", "reform", "sentencing"])]

/-- The keyword loop of `categorize_bill` (app.py 906-911): for each topic in
dictionary order, append the topic once if any of its keywords occurs in the
text (the inner `break` makes the topic contribute at most once, which is
exactly "any keyword matches"). -/
def topicsFor (dict : List (String × List String)) (text : List Char) : List String :=
  match dict with
  | [] => []
  | (topic, keywords) :: rest =>
      if keywords.any (fun kw => occurs kw.toList text) then
        topic :: topicsFor rest text
      else
        topicsFor rest text

/-- `categorize_bill` (app.py 897-920): lower-case `"{title} {summary}"`, return
`[]` when the text is empty or its stripped length is below 10, otherwise run
the keyword loop and, if nothing matched, the generic-pattern fallback. -/
def categorize_bill (title summary : String) : List String :=
  let text : List Char := pyLower (title ++ " " ++ summary).toList
  if text.isEmpty || (pyStrip text).length < 10 then []
  else
    let topics := topicsFor TOPIC_KEYWORDS text
    if topics.isEmpty then
      if ["act", "law", "bill", "legislation"].any (fun w => occurs w.toList text) then
        ["general_legislation"]
      else if ["amendment", "modify", "change", "update"].any (fun w => occurs w.toList text) then
        ["legislative_reform"]
      else []
    else topics

/-!
## Raw and processed bill records

`RawBill` models the fields of a Congress.gov API bill object that
`process_congress_bill_lightweight` / `process_congress_bill` read; a missing
key is `none`.  `latestAction` can be a JSON object (with a `text` field) or a
plain string, which the code distinguishes with `isinstance` (app.py 756-760).
-/

inductive LatestAction where
  | obj (text : Option String)
  | str (s : String)
deriving Repr, DecidableEq

structure RawBill where
  title : Option String
  number : Option String
  congress : Option String
  billType : Option String
  originChamber : Option String
  introducedDate : Option String
  latestAction : Option LatestAction
deriving Repr, DecidableEq

structure ProcessedBill where
  bill_id : String
  title : String
  summary : String
  introduced_date : String
  status : String
  latest_action : String
  chamber : String
  sponsor : String
  topics : List String
  bill_type : String
  bill_number : String
  congress : String
  congress_url : String
deriving Repr, DecidableEq

/-- Status extraction from `latestAction` (app.py 755-760 and 848-853). -/
def extractStatus (la : Option LatestAction) : String :=
  match la with
  | none => ""
  | some (.obj text) => pyGet text ""
  | some (.str s) => s

/-- `generate_congress_url` (app.py 1346-1396), dict branch.  The source also
computes `bill_prefix` and `encoded_bill_id`, but neither appears in the
produced URL, so they are omitted here; the guard is on `bill_number` and
`bill_id` truthiness, otherwise fall through to the `bill_id`-split fallback. -/
def generate_congress_url (_bill_type bill_number congress chamber bill_id : String) : String :=
  if pyTruthy bill_number && pyTruthy bill_id then
    let chamber_format := if pyLowerStr chamber = "house" then "house-bill" else "senate-bill"
    "https://www.congress.gov/bill/" ++ congress ++ "th-congress/" ++ chamber_format ++ "/"
      ++ bill_number ++ "?q=%7B%22search%22%3A%22" ++ bill_id ++ "%22%7D&s=1&r=1"
  else
    match bill_id.splitOn "-" with
    | p0 :: p1 :: _ => "https://www.govtrack.us/congress/bills/" ++ p1 ++ "/hr" ++ p0
    | _ => "https://www.govtrack.us/congress/bills/119/" ++ bill_id

/-- The `bill_id` construction shared by both normalizers
(app.py 764-772 and 857-865). -/
def constructBillId (raw : RawBill) : String :=
  let bill_number := pyGet raw.number ""
  let congress_number := pyGet raw.congress "118"
  let bill_type := pyLowerStr (pyGet raw.billType "")
  let chamber := pyLowerStr (pyGet raw.originChamber "")
  if pyTruthy bill_number && pyTruthy bill_type && pyTruthy chamber then
    bill_type ++ bill_number ++ "-" ++ congress_number
  else
    "unknown-" ++ congress_number

/-- Chamber display conversion (app.py 775-778): `house ↦ House`,
`senate ↦ Senate`, anything else unchanged. -/
def displayChamber (chamber : String) : String :=
  if chamber = "house" then "House"
  else if chamber = "senate" then "Senate"
  else chamber

/-- `process_congress_bill_lightweight` (app.py 739-802).  The Python body has
no failing operation on the modelled fields, so the `try/except` never fires
and the result is total; the summary is the fixed placeholder and topics are
computed from the title with an empty summary. -/
def process_congress_bill_lightweight (raw : RawBill) : ProcessedBill :=
  let title := pyGet raw.title ""
  let summary := "Text not available"
  let chamber := pyLowerStr (pyGet raw.originChamber "")
  let bill_id := constructBillId raw
  { bill_id := bill_id
    title := title
    summary := summary
    introduced_date := pyGet raw.introducedDate ""
    status := extractStatus raw.latestAction
    latest_action := extractStatus raw.latestAction
    chamber := displayChamber chamber
    sponsor := "Click to view sponsor details"
    topics := categorize_bill title ""
    bill_type := pyGet raw.billType ""
    bill_number := pyGet raw.number ""
    congress := pyGet raw.congress "118"
    congress_url := generate_congress_url (pyGet raw.billType "") (pyGet raw.number "")
      (pyGet raw.congress "118") (displayChamber chamber) bill_id }

/-- Detail-endpoint response consumed by `process_congress_bill`
(sponsor full name, introduced date), or `none` for a failed request. -/
structure BillDetail where
  sponsorFullName : Option String
  introducedDate : Option String
deriving Repr, DecidableEq

/-- `process_congress_bill` (app.py 804-895): like the lightweight path but
with a per-bill detail fetch (modelled by the `detail` oracle) for the sponsor
name, falling back to a placeholder, and topics computed from the title
together with the placeholder summary. -/
def process_congress_bill (detail : Option BillDetail) (raw : RawBill) : ProcessedBill :=
  let title := pyGet raw.title ""
  let summary := "Text not available"
  let introduced_date0 := pyGet raw.introducedDate ""
  let sponsor0 :=
    match detail with
    | none => ""
    | some d => pyGet d.sponsorFullName ""
  let introduced_date :=
    if introduced_date0.isEmpty then
      match detail with
      | none => ""
      | some d => pyGet d.introducedDate ""
    else introduced_date0
  let sponsor :=
    if sponsor0.isEmpty then "Sponsor information not available from Congress.gov API"
    else sponsor0
  let chamber := pyLowerStr (pyGet raw.originChamber "")
  let bill_id := constructBillId raw
  { bill_id := bill_id
    title := title
    summary := summary
    introduced_date := introduced_date
    status := extractStatus raw.latestAction
    latest_action := extractStatus raw.latestAction
    chamber := displayChamber chamber
    sponsor := sponsor
    topics := categorize_bill title summary
    bill_type := pyGet raw.billType ""
    bill_number := pyGet raw.number ""
    congress := pyGet raw.congress "118"
    congress_url := generate_congress_url (pyGet raw.billType "") (pyGet raw.number "")
      (pyGet raw.congress "118") (displayChamber chamber) bill_id }

/-!
## External fetch (`fetch_bills_from_api`, app.py 651-737)

HTTP is modelled by an oracle mapping a request to `some bills` (a 200
response whose body yields that `bills` list) or `none` (non-200 / network
failure, which the code turns into an empty contribution).
-/

/-- One outbound request of the bill-list endpoint: `requests.get(url,
params=...)`.  The `'both'` branch passes only `limit` and `offset`
(app.py 679, 693); the single-chamber branch also passes `chamber`
(app.py 719). -/
structure ApiRequest where
  url : String
  limit : Nat
  offset : Nat
  chamber : Option String
deriving Repr, DecidableEq

/-- The raw-bill list cache (`api_bills_cache`, `api_bills_cache_time`). -/
structure ApiCache where
  bills : Option (List RawBill)
  time : Option Int
deriving Repr, DecidableEq

/-- The in-memory validity test of `fetch_bills_from_api` (app.py 657-660):
Python truthiness of the cached list (non-`None` and non-empty) and of the
timestamp (non-`None` and non-zero), then the TTL comparison. -/
def apiCacheValid (now : Int) (c : ApiCache) : Bool :=
  (match c.bills with | none => false | some bs => !bs.isEmpty)
    && (match c.time with | none => false | some t => decide (t ≠ 0) && decide (now - t < CACHE_DURATION))

/-- Result of a `fetch_bills_from_api` run: the returned list, the requests
issued in order, and the updated raw-bill cache. -/
structure FetchResult where
  bills : List RawBill
  requests : List ApiRequest
  cache : ApiCache
deriving Repr, DecidableEq

/-- `fetch_bills_from_api` (app.py 651-737).  On a cache hit no request is
issued.  On a miss with `chamber = "both"` two sequential requests are issued
with identical parameters `limit=50, offset` and no chamber filter
(app.py 679 and 693); each non-200 response contributes nothing; the
concatenated list is cached and returned.  Any other chamber issues one
request with `limit=250, offset, chamber`; a failure returns `[]` without
touching the cache. -/
def fetch_bills_from_api (http : ApiRequest → Option (List RawBill))
    (chamber : String) (offset : Nat) (now : Int) (cache : ApiCache) : FetchResult :=
  if apiCacheValid now cache then
    { bills := cache.bills.getD [], requests := [], cache := cache }
  else
    if chamber = "both" then
      let houseReq : ApiRequest :=
        { url := CONGRESS_BASE_URL ++ "/bill", limit := 50, offset := offset, chamber := none }
      let senateReq : ApiRequest :=
        { url := CONGRESS_BASE_URL ++ "/bill", limit := 50, offset := offset, chamber := none }
      let houseBills := (http houseReq).getD []
      let senateBills := (http senateReq).getD []
      let bills := houseBills ++ senateBills
      { bills := bills
        requests := [houseReq, senateReq]
        cache := { bills := some bills, time := some now } }
    else
      let req : ApiRequest :=
        { url := CONGRESS_BASE_URL ++ "/bill", limit := 250, offset := offset,
          chamber := some chamber }
      match http req with
      | some bills =>
          { bills := bills, requests := [req],
            cache := { bills := some bills, time := some now } }
      | none =>
          { bills := [], requests := [req], cache := cache }

/-!
## Two-tier processed-bills cache
(`load_cache_from_file`, `save_cache_to_file`, `get_processed_bills_cached`,
app.py 396-445 and 514-560)

The durable file is modelled as `Option CacheFile`: `none` when the file is
absent; JSON (de)serialization of a timestamp/bills object round-trips, so the
file holds the value itself.
-/

structure CacheFile where
  timestamp : Int
  bills : List ProcessedBill
deriving Repr, DecidableEq

/-- The full mutable cache state read and written by
`get_processed_bills_cached`: the module globals `processed_bills_cache`,
`processed_bills_cache_time` and the durable cache file. -/
structure CacheState where
  processedBillsCache : Option (List ProcessedBill)
  processedBillsCacheTime : Option Int
  cacheFile : Option CacheFile
deriving Repr, DecidableEq

/-- `load_cache_from_file` (app.py 396-421): a present file whose
`timestamp` is within `CACHE_DURATION` of `now` yields its `bills`
(`cache_data.get('bills', [])`); an expired or absent file yields `None`. -/
def load_cache_from_file (now : Int) (file : Option CacheFile) : Option (List ProcessedBill) :=
  match file with
  | none => none
  | some fc => if now - fc.timestamp < CACHE_DURATION then some fc.bills else none

/-- `save_cache_to_file` (app.py 423-439): write `{timestamp: now, bills}`. -/
def save_cache_to_file (bills : List ProcessedBill) (now : Int) : Option CacheFile :=
  some { timestamp := now, bills := bills }

/-- The in-memory validity test of `get_processed_bills_cached`
(app.py 519-523): Python truthiness of the cached list and timestamp, then
the TTL comparison. -/
def memCacheValid (now : Int) (s : CacheState) : Bool :=
  (match s.processedBillsCache with | none => false | some bs => !bs.isEmpty)
    && (match s.processedBillsCacheTime with
        | none => false
        | some t => decide (t ≠ 0) && decide (now - t < CACHE_DURATION))

/-- Python truthiness of an optional limit argument: `None` and `0` are falsy
(`if not limit`, app.py 551, and `if limit and i >= limit`, app.py 543). -/
def truthyLimit : Option Nat → Bool
  | none => false
  | some n => decide (n ≠ 0)

/-- The processing loop of `get_processed_bills_cached` (app.py 540-548):
enumerate the raw bills, `break` at index `limit` when `limit` is truthy, and
normalize each record with the lightweight path (which never returns a falsy
record in this model, so every processed record is kept). -/
def processWithLimit (limit : Option Nat) (apiBills : List RawBill) : List ProcessedBill :=
  (if truthyLimit limit then apiBills.take (limit.getD 0) else apiBills).map
    process_congress_bill_lightweight

/-- `get_processed_bills_cached` (app.py 514-560), with the external fetch
abstracted to the list `apiBills` it returns.  Returns the result list and
the updated cache state.  Tier order: valid memory entry; then the durable
file (a truthy load is promoted into memory with timestamp `now`); then the
external fetch, whose processed result is persisted to both tiers only when
`limit` is falsy. -/
def get_processed_bills_cached (now : Int) (limit : Option Nat)
    (apiBills : List RawBill) (s : CacheState) : List ProcessedBill × CacheState :=
  if memCacheValid now s then
    (s.processedBillsCache.getD [], s)
  else
    match load_cache_from_file now s.cacheFile with
    | some fileBills =>
        if fileBills.isEmpty then
          fetchStep now limit apiBills s
        else
          (fileBills,
           { s with processedBillsCache := some fileBills,
                    processedBillsCacheTime := some now })
    | none => fetchStep now limit apiBills s
where
  /-- The fetch-and-process tail of the function (app.py 534-560): Python's
  `if file_cache:` is falsy both for `None` and for an empty list, so both
  fall through to here. -/
  fetchStep (now : Int) (limit : Option Nat) (apiBills : List RawBill)
      (s : CacheState) : List ProcessedBill × CacheState :=
    if apiBills.isEmpty then
      ([], s)
    else
      let processed := processWithLimit limit apiBills
      if truthyLimit limit then
        (processed, s)
      else
        (processed,
         { processedBillsCache := some processed,
           processedBillsCacheTime := some now,
           cacheFile := save_cache_to_file processed now })

/-!
## Vote store (`Vote` model, app.py 129-138; `api_vote_bill`, app.py 1843-1890)

The `vote` table is a list of rows; `Vote.query.filter_by(bill_id=...,
user_id=...).first()` finds the first row for the pair, which the endpoint
updates in place, otherwise a new row is inserted.
-/

structure VoteRow where
  bill_id : String
  ip_address : String
  vote_type : String
  user_id : Nat
deriving Repr, DecidableEq

/-- Row match for `filter_by(bill_id=b, user_id=u)`. -/
def voteMatches (b : String) (u : Nat) (v : VoteRow) : Bool :=
  v.bill_id = b && v.user_id = u

/-- The upsert of `api_vote_bill` (app.py 1859-1875): update the first
existing row for `(bill_id, user_id)` in place (only `vote_type` and the
timestamp change), else insert a fresh row. -/
def upsertVote (b : String) (u : Nat) (ip vt : String) : List VoteRow → List VoteRow
  | [] => [{ bill_id := b, ip_address := ip, vote_type := vt, user_id := u }]
  | v :: rest =>
      if voteMatches b u v then { v with vote_type := vt } :: rest
      else v :: upsertVote b u ip vt rest

/-- `api_vote_bill` (app.py 1843-1890): reject a missing or invalid
`vote_type` (store unchanged), otherwise upsert. -/
def api_vote_bill (store : List VoteRow) (b : String) (u : Nat) (ip : String)
    (vt : Option String) : List VoteRow :=
  match vt with
  | none => store
  | some v => if v = "up" || v = "down" then upsertVote b u ip v store else store

/-!
## Theorems
-/

/-- C1: the claim says every identifier beginning with a multi-letter prefix
(`hjres`, `sjres`, `hconres`, `sconres`, `hres`, `sres`) is parsed as that
multi-letter bill type.  The chain in `bill_detail` / `get_bill_summary`
tests `hr` and `s` first, so `sres5` is parsed as type `s` with number
`res5`, `hres12` as type `hr` with number `es12`, and likewise for `sjres` /
`sconres`; the dedicated multi-letter branches below them are unreachable
dead code for those four prefixes, which shows the multi-letter behaviour was
the intent and the branch order is the slip. -/
theorem c1_prefix_order_eval :
    parse_bill_identifier "sres5" = ("s", "res5")
      ∧ parse_bill_identifier "hres12" = ("hr", "es12")
      ∧ parse_bill_identifier "sjres3" = ("s", "jres3")
      ∧ parse_bill_identifier "sconres7" = ("s", "conres7")
      ∧ parse_bill_identifier "hjres3" = ("hjres", "3")
      ∧ parse_bill_identifier "hconres9" = ("hconres", "9") := by
  refine ⟨?_, ?_, ?_, ?_, ?_, ?_⟩ <;> decide

/-- C4: a cache entry written at time `T` is judged valid by the file-cache
validity check at `T + 1799` (its bill list is returned) and invalid at
`T + 1801` (treated as a miss), with the TTL constant equal to 1800
seconds. -/
theorem c4_ttl_boundary (t : Int) (bills : List ProcessedBill) :
    load_cache_from_file (t + 1799) (save_cache_to_file bills t) = some bills
      ∧ load_cache_from_file (t + 1801) (save_cache_to_file bills t) = none
      ∧ CACHE_DURATION = 1800 := by
  refine ⟨?_, ?_, rfl⟩ <;>
    simp only [load_cache_from_file, save_cache_to_file, CACHE_DURATION] <;>
    norm_num

/-- C8: whenever the combined title-and-summary text, lower-cased and
stripped, is shorter than 10 characters, `categorize_bill` returns the empty
topic list. -/
theorem c8_short_text_no_topics (title summary : String)
    (h : (pyStrip (pyLower (title ++ " " ++ summary).toList)).length < 10) :
    categorize_bill title summary = [] := by
  have hb : ((pyLower (title ++ " " ++ summary).toList).isEmpty
      || decide ((pyStrip (pyLower (title ++ " " ++ summary).toList)).length < 10)) = true := by
    simp only [Bool.or_eq_true, decide_eq_true_eq]
    exact Or.inr h
  simp only [categorize_bill, hb, if_true]

/-- C8 witness: the empty title and summary combine to a single space, whose
stripped length is 0, and the classifier returns no topics. -/
theorem c8_short_text_no_topics_witness :
    (pyStrip (pyLower (("" : String) ++ " " ++ "").toList)).length < 10
      ∧ categorize_bill "" "" = [] :=
  ⟨by decide, c8_short_text_no_topics "" "" (by decide)⟩

/-- C9: saving a bill list to the durable cache file and loading it back
within the TTL window yields the same list unchanged (the file holds a
JSON-serializable timestamp/bills object, and JSON round-trips it). -/
theorem c9_file_roundtrip (bills : List ProcessedBill) (t now : Int)
    (h : now - t < CACHE_DURATION) :
    load_cache_from_file now (save_cache_to_file bills t) = some bills := by
  simp [load_cache_from_file, save_cache_to_file, h]

/-- C9 witness: a concrete one-element list written at time 0 and read back
at time 10 is returned unchanged. -/
theorem c9_file_roundtrip_witness :
    ((10 : Int) - 0 < CACHE_DURATION)
      ∧ load_cache_from_file 10 (save_cache_to_file [] 0) = some [] :=
  ⟨by decide, c9_file_roundtrip [] 0 10 (by decide)⟩

/-- Lower-casing a string preserves emptiness. -/
lemma pyLowerStr_eq_empty_iff (s : String) : pyLowerStr s = "" ↔ s = "" := by
  rcases s with ⟨l⟩
  cases l with
  | nil => simp [pyLowerStr, pyLower]
  | cons c cs => simp [pyLowerStr, pyLower, String.ext_iff]

/-- The `bill_id` construction of both normalizers, characterised the way the
spec states it: all three of number, type, chamber present and non-empty
gives `{type}{number}-{congress}` (type lower-cased), anything missing or
empty gives `unknown-{congress}`, with congress defaulting to `118`. -/
lemma constructBillId_spec (raw : RawBill) :
    constructBillId raw =
      if pyGet raw.number "" ≠ "" ∧ pyGet raw.billType "" ≠ "" ∧ pyGet raw.originChamber "" ≠ "" then
        pyLowerStr (pyGet raw.billType "") ++ pyGet raw.number "" ++ "-" ++ pyGet raw.congress "118"
      else "unknown-" ++ pyGet raw.congress "118" := by
  by_cases h1 : pyGet raw.number "" = "" <;>
    by_cases h2 : pyGet raw.billType "" = "" <;>
      by_cases h3 : pyGet raw.originChamber "" = "" <;>
        simp [constructBillId, pyTruthy, pyLowerStr_eq_empty_iff, h1, h2, h3]

/-- C7: for every raw bill record, normalization (both the lightweight and
the detailed path, which are total in this model, so nothing is raised)
produces the identifier `{type}{number}-{congress}` when the number, type and
chamber fields are all present and non-empty, and `unknown-{congress}`
otherwise, with the congress field defaulting to `118`. -/
theorem c7_identifier_fallback (raw : RawBill) (detail : Option BillDetail) :
    (process_congress_bill_lightweight raw).bill_id =
        (if pyGet raw.number "" ≠ "" ∧ pyGet raw.billType "" ≠ ""
            ∧ pyGet raw.originChamber "" ≠ "" then
          pyLowerStr (pyGet raw.billType "") ++ pyGet raw.number "" ++ "-"
            ++ pyGet raw.congress "118"
        else "unknown-" ++ pyGet raw.congress "118")
      ∧ (process_congress_bill detail raw).bill_id =
        (if pyGet raw.number "" ≠ "" ∧ pyGet raw.billType "" ≠ ""
            ∧ pyGet raw.originChamber "" ≠ "" then
          pyLowerStr (pyGet raw.billType "") ++ pyGet raw.number "" ++ "-"
            ++ pyGet raw.congress "118"
        else "unknown-" ++ pyGet raw.congress "118") :=
  ⟨constructBillId_spec raw, constructBillId_spec raw⟩

/-- A raw bill record with every field absent, used for concrete runs. -/
def sampleRawBill : RawBill :=
  { title := none, number := none, congress := none, billType := none,
    originChamber := none, introducedDate := none, latestAction := none }

/-- C2: the claim says the `'both'` fetch issues one request retrieving House
bills and one retrieving Senate bills.  Running the fetch on a cold cache
shows the two sequential requests are byte-identical — same URL, `limit=50`,
`offset=0` and no `chamber` parameter at all — so neither request is
restricted to a chamber, even though the result is indeed the concatenation
of the two responses in call order. -/
theorem c2_both_requests_identical :
    (fetch_bills_from_api (fun _ => some [sampleRawBill]) "both" 0 100
        { bills := none, time := none }).requests
      = [{ url := CONGRESS_BASE_URL ++ "/bill", limit := 50, offset := 0, chamber := none },
         { url := CONGRESS_BASE_URL ++ "/bill", limit := 50, offset := 0, chamber := none }]
      ∧ (fetch_bills_from_api (fun _ => some [sampleRawBill]) "both" 0 100
          { bills := none, time := none }).bills
        = [sampleRawBill] ++ [sampleRawBill] := by
  refine ⟨?_, ?_⟩ <;> rfl

/-- Upserting into a store with no row for the pair appends a fresh row. -/
lemma filter_upsertVote_nomatch (b : String) (u : Nat) (ip vt : String)
    (store : List VoteRow) (h : store.filter (voteMatches b u) = []) :
    (upsertVote b u ip vt store).filter (voteMatches b u)
      = [{ bill_id := b, ip_address := ip, vote_type := vt, user_id := u }] := by
  induction store with
  | nil => simp [upsertVote, voteMatches]
  | cons v rest ih =>
      rw [List.filter_cons] at h
      by_cases hv : voteMatches b u v = true
      · simp [hv] at h
      · rw [if_neg (by simp [hv])] at h
        simp only [upsertVote]
        rw [if_neg (by simp [hv]), List.filter_cons, if_neg (by simp [hv])]
        exact ih h

/-- Upserting into a store with exactly one row for the pair updates that
row's `vote_type` in place. -/
lemma filter_upsertVote_match (b : String) (u : Nat) (ip vt : String) (r : VoteRow)
    (store : List VoteRow) (h : store.filter (voteMatches b u) = [r]) :
    (upsertVote b u ip vt store).filter (voteMatches b u)
      = [{ r with vote_type := vt }] := by
  induction store with
  | nil => simp at h
  | cons v rest ih =>
      rw [List.filter_cons] at h
      by_cases hv : voteMatches b u v = true
      · rw [if_pos (by simp [hv])] at h
        have hvr : v = r := (List.cons_eq_cons.mp h).1
        have hrest : rest.filter (voteMatches b u) = [] := (List.cons_eq_cons.mp h).2
        subst hvr
        simp only [upsertVote]
        rw [if_pos hv, List.filter_cons, if_pos (by simpa [voteMatches] using hv), hrest]
      · rw [if_neg (by simp [hv])] at h
        simp only [upsertVote]
        rw [if_neg (by simp [hv]), List.filter_cons, if_neg (by simp [hv])]
        exact ih h

/-- C6: starting from any vote store respecting the uniqueness constraint
(at most one row per `(bill_id, user)` pair), after two successive valid vote
submissions by the same user on the same bill, exactly one row exists for the
pair and its `vote_type` is the one of the second submission. -/
theorem c6_vote_upsert (store : List VoteRow) (b ip1 ip2 vt1 vt2 : String) (u : Nat)
    (huniq : (store.filter (voteMatches b u)).length ≤ 1)
    (h1 : vt1 = "up" ∨ vt1 = "down") (h2 : vt2 = "up" ∨ vt2 = "down") :
    ∃ r, (api_vote_bill (api_vote_bill store b u ip1 (some vt1)) b u ip2
          (some vt2)).filter (voteMatches b u) = [r]
      ∧ r.vote_type = vt2 := by
  have e1 : api_vote_bill store b u ip1 (some vt1) = upsertVote b u ip1 vt1 store := by
    rcases h1 with h | h <;> simp [api_vote_bill, h]
  have e2 : ∀ s, api_vote_bill s b u ip2 (some vt2) = upsertVote b u ip2 vt2 s := by
    intro s; rcases h2 with h | h <;> simp [api_vote_bill, h]
  rw [e1, e2]
  cases hf : store.filter (voteMatches b u) with
  | nil =>
      have f1 := filter_upsertVote_nomatch b u ip1 vt1 store hf
      have f2 := filter_upsertVote_match b u ip2 vt2 _ _ f1
      exact ⟨_, f2, rfl⟩
  | cons r rest =>
      have hrest : rest = [] := by
        rw [hf] at huniq
        simpa using huniq
      subst hrest
      have f1 := filter_upsertVote_match b u ip1 vt1 r store hf
      have f2 := filter_upsertVote_match b u ip2 vt2 _ _ f1
      exact ⟨_, f2, rfl⟩

/-- C6 witness: on the empty store, voting `up` then `down` on bill
`hr1-118` as user 1 leaves exactly one row for the pair, typed `down`. -/
theorem c6_vote_upsert_witness :
    (([] : List VoteRow).filter (voteMatches "hr1-118" 1)).length ≤ 1
      ∧ ∃ r, (api_vote_bill (api_vote_bill [] "hr1-118" 1 "1.2.3.4" (some "up"))
            "hr1-118" 1 "5.6.7.8" (some "down")).filter (voteMatches "hr1-118" 1) = [r]
          ∧ r.vote_type = "down" :=
  ⟨by decide,
   c6_vote_upsert [] "hr1-118" "1.2.3.4" "5.6.7.8" "up" "down" 1 (by decide)
     (Or.inl rfl) (Or.inr rfl)⟩

/-- A read that misses both the memory tier and the file tier runs the
fetch-and-process tail of `get_processed_bills_cached`. -/
lemma reaches_fetchStep (now : Int) (limit : Option Nat) (apiBills : List RawBill)
    (s : CacheState) (hmem : memCacheValid now s = false)
    (hfile : load_cache_from_file now s.cacheFile = none
      ∨ load_cache_from_file now s.cacheFile = some []) :
    get_processed_bills_cached now limit apiBills s
      = get_processed_bills_cached.fetchStep now limit apiBills s := by
  unfold get_processed_bills_cached
  rw [if_neg (by simp [hmem])]
  rcases hfile with h | h <;> simp [h]

/-- The fetch-and-process tail returns either the processed (possibly
truncated) bill list or the empty list. -/
lemma fetchStep_fst (now : Int) (limit : Option Nat) (apiBills : List RawBill)
    (s : CacheState) :
    (get_processed_bills_cached.fetchStep now limit apiBills s).1
        = processWithLimit limit apiBills
      ∨ (get_processed_bills_cached.fetchStep now limit apiBills s).1 = [] := by
  unfold get_processed_bills_cached.fetchStep
  by_cases ha : apiBills.isEmpty = true
  · simp [ha]
  · by_cases hl : truthyLimit limit = true <;> simp [ha, hl]

/-- A fixed processed bill used in the concrete cache runs. -/
def staleBill : ProcessedBill :=
  { bill_id := "hr1-118", title := "A bill", summary := "Text not available",
    introduced_date := "2023-01-01", status := "", latest_action := "",
    chamber := "House", sponsor := "Click to view sponsor details", topics := [],
    bill_type := "HR", bill_number := "1", congress := "118", congress_url := "" }

/-- C3 counterexample: the claim says a list whose original write timestamp
is more than TTL in the past is never returned, including after file-to-
memory promotion.  Write the file at time 0; a read at time 1700 promotes the
list into memory but stamps it with the promotion time 1700, so a read at
time 3000 — when the original write is 3000 seconds old, well past the
1800-second TTL — still returns the list from memory. -/
theorem c3_stale_after_promotion :
    (get_processed_bills_cached 3000 none []
        (get_processed_bills_cached 1700 none []
          { processedBillsCache := none, processedBillsCacheTime := none,
            cacheFile := some { timestamp := 0, bills := [staleBill] } }).2).1
      = [staleBill]
      ∧ (3000 : Int) - 0 > CACHE_DURATION := by
  exact ⟨rfl, by decide⟩

/-- C3 amended: each tier judges staleness against its own stored timestamp:
whatever `get_processed_bills_cached` returns is the memory list within TTL
of the in-memory timestamp, the file list within TTL of the file timestamp,
or a freshly fetched list (possibly empty).  Because promotion re-stamps the
in-memory copy with the promotion time rather than the original write time,
this per-tier discipline is all that holds: a promoted list can be served up
to just under twice the TTL after its original write, as the counterexample
shows. -/
theorem c3_tier_ttl (now : Int) (limit : Option Nat) (apiBills : List RawBill)
    (s : CacheState) :
    (∃ bs t, s.processedBillsCache = some bs ∧ s.processedBillsCacheTime = some t
        ∧ now - t < CACHE_DURATION
        ∧ (get_processed_bills_cached now limit apiBills s).1 = bs)
      ∨ (∃ fc, s.cacheFile = some fc ∧ now - fc.timestamp < CACHE_DURATION
          ∧ (get_processed_bills_cached now limit apiBills s).1 = fc.bills)
      ∨ (get_processed_bills_cached now limit apiBills s).1 = processWithLimit limit apiBills
      ∨ (get_processed_bills_cached now limit apiBills s).1 = [] := by
  by_cases hm : memCacheValid now s = true
  · left
    rcases hs : s.processedBillsCache with _ | bs
    · rw [memCacheValid, hs] at hm; simp at hm
    · rcases ht : s.processedBillsCacheTime with _ | t
      · rw [memCacheValid, hs, ht] at hm; simp at hm
      · refine ⟨bs, t, rfl, rfl, ?_, ?_⟩
        · rw [memCacheValid, hs, ht] at hm
          simp only [Bool.and_eq_true, decide_eq_true_eq] at hm
          exact hm.2.2
        · unfold get_processed_bills_cached
          rw [if_pos hm, hs]
          rfl
  · have hm' : memCacheValid now s = false := by
      revert hm; cases memCacheValid now s <;> simp
    rcases hl : load_cache_from_file now s.cacheFile with _ | fileBills
    · have := reaches_fetchStep now limit apiBills s hm' (Or.inl hl)
      rw [this]
      exact Or.inr (Or.inr (fetchStep_fst now limit apiBills s))
    · by_cases he : fileBills.isEmpty = true
      · have hnil : fileBills = [] := by simpa using he
        subst hnil
        have := reaches_fetchStep now limit apiBills s hm' (Or.inr hl)
        rw [this]
        exact Or.inr (Or.inr (fetchStep_fst now limit apiBills s))
      · right; left
        rcases hc : s.cacheFile with _ | fc
        · rw [hc] at hl; simp [load_cache_from_file] at hl
        · rw [hc] at hl
          simp only [load_cache_from_file] at hl
          by_cases httl : now - fc.timestamp < CACHE_DURATION
          · refine ⟨fc, rfl, httl, ?_⟩
            have hfb : fileBills = fc.bills := by
              rw [if_pos httl] at hl
              exact (Option.some_injective _ hl.symm)
            unfold get_processed_bills_cached
            rw [if_neg (by simp [hm']), hc]
            simp only [load_cache_from_file, if_pos httl]
            rw [← hfb]
            simp [he]
          · rw [if_neg httl] at hl; simp at hl

/-- C5 counterexample: the claim says every call passing a non-null limit
that reaches the external-fetch path leaves both cache tiers unwritten.
Python tests the limit with `if not limit:`, which treats `0` like `None`:
a call with the non-null limit `0` on a cold cache persists its result to
both the in-memory tier and the durable file. -/
theorem c5_limit_zero_persists :
    (some 0 : Option Nat) ≠ none
      ∧ (get_processed_bills_cached 5 (some 0) [sampleRawBill]
            { processedBillsCache := none, processedBillsCacheTime := none,
              cacheFile := none }).2
        = { processedBillsCache := some [process_congress_bill_lightweight sampleRawBill],
            processedBillsCacheTime := some 5,
            cacheFile :=
              some { timestamp := 5,
                     bills := [process_congress_bill_lightweight sampleRawBill] } } :=
  ⟨by decide, rfl⟩

/-- C5 amended: a call passing a non-null **and non-zero** limit that
reaches the external-fetch path writes neither the in-memory processed-bills
cache (value or timestamp) nor the durable cache file, while a call with no
limit persists its processed result to both tiers; a limit of `0` is treated
by Python truthiness exactly like no limit and also persists. -/
theorem c5_limited_fetch_no_persist (now : Int) (n : Nat) (apiBills : List RawBill)
    (s : CacheState) (hn : n ≠ 0) (hmem : memCacheValid now s = false)
    (hfile : load_cache_from_file now s.cacheFile = none
      ∨ load_cache_from_file now s.cacheFile = some []) :
    (get_processed_bills_cached now (some n) apiBills s).2 = s
      ∧ (apiBills ≠ [] →
          (get_processed_bills_cached now none apiBills s).2
            = { processedBillsCache := some (processWithLimit none apiBills),
                processedBillsCacheTime := some now,
                cacheFile := save_cache_to_file (processWithLimit none apiBills) now }) := by
  constructor
  · rw [reaches_fetchStep now (some n) apiBills s hmem hfile]
    unfold get_processed_bills_cached.fetchStep
    by_cases ha : apiBills.isEmpty = true
    · simp [ha]
    · have hl : truthyLimit (some n) = true := by simp [truthyLimit, hn]
      simp [ha, hl]
  · intro hne
    rw [reaches_fetchStep now none apiBills s hmem hfile]
    unfold get_processed_bills_cached.fetchStep
    have ha : apiBills.isEmpty = false := by simpa using hne
    simp [ha, truthyLimit]

/-- C5 witness: on a cold cache, a fetch with limit 1 leaves the cache state
untouched, while a fetch with no limit persists the processed list to both
tiers. -/
theorem c5_limited_fetch_no_persist_witness :
    (get_processed_bills_cached 0 (some 1) [sampleRawBill]
        { processedBillsCache := none, processedBillsCacheTime := none,
          cacheFile := none }).2
      = { processedBillsCache := none, processedBillsCacheTime := none, cacheFile := none }
      ∧ (get_processed_bills_cached 0 none [sampleRawBill]
            { processedBillsCache := none, processedBillsCacheTime := none,
              cacheFile := none }).2
        = { processedBillsCache := some (processWithLimit none [sampleRawBill]),
            processedBillsCacheTime := some 0,
            cacheFile := save_cache_to_file (processWithLimit none [sampleRawBill]) 0 } :=
  have h := c5_limited_fetch_no_persist 0 1 [sampleRawBill]
    { processedBillsCache := none, processedBillsCacheTime := none, cacheFile := none }
    (by decide) rfl (Or.inl rfl)
  ⟨h.1, h.2 (by simp)⟩

/-- A substring of the right part of a concatenation is a substring of the
whole. -/
lemma occurs_append_left (needle l1 l2 : List Char) (h : occurs needle l2 = true) :
    occurs needle (l1 ++ l2) = true := by
  induction l1 with
  | nil => simpa using h
  | cons c cs ih =>
      rw [List.cons_append]
      simp only [occurs, Bool.or_eq_true]
      exact Or.inr ih

/-- A topic whose keyword list has a match in the text appears in the
classifier's keyword-loop output. -/
lemma mem_topicsFor (dict : List (String × List String)) (text : List Char)
    (topic : String) (kws : List String) (hmem : (topic, kws) ∈ dict)
    (hany : kws.any (fun kw => occurs kw.toList text) = true) :
    topic ∈ topicsFor dict text := by
  induction dict with
  | nil => simp at hmem
  | cons p rest ih =>
      rcases List.mem_cons.mp hmem with h | h
      · rcases p with ⟨t, ks⟩
        injection h with ht hk
        subst ht
        subst hk
        simp only [topicsFor]
        rw [if_pos hany]
        exact List.mem_cons_self _ _
      · rcases p with ⟨t, ks⟩
        simp only [topicsFor]
        by_cases hc : (ks.any (fun kw => occurs kw.toList text)) = true
        · rw [if_pos hc]; exact List.mem_cons_of_mem _ (ih h)
        · rw [if_neg hc]; exact ih h

/-- The lower-cased characters of the placeholder summary, minus its leading
space. -/
def notAvailTail : List Char := "text not available".toList

/-- Dropping leading whitespace from any text ending in the placeholder
leaves the placeholder intact as a suffix. -/
lemma dropWhile_append_notAvail (pre : List Char) :
    ∃ q, (pre ++ ' ' :: notAvailTail).dropWhile Char.isWhitespace = q ++ notAvailTail := by
  induction pre with
  | nil => exact ⟨[], by decide⟩
  | cons c cs ih =>
      by_cases hc : Char.isWhitespace c = true
      · obtain ⟨q, hq⟩ := ih
        refine ⟨q, ?_⟩
        rw [List.cons_append, List.dropWhile_cons, if_pos hc]
        exact hq
      · refine ⟨c :: (cs ++ [' ']), ?_⟩
        rw [List.cons_append, List.dropWhile_cons, if_neg hc]
        simp [List.append_assoc]

/-- Stripping any text that ends in the placeholder summary leaves the
placeholder intact as a suffix (its last character is not whitespace). -/
lemma pyStrip_append_notAvail (pre : List Char) :
    ∃ q, pyStrip (pre ++ ' ' :: notAvailTail) = q ++ notAvailTail := by
  obtain ⟨q, hq⟩ := dropWhile_append_notAvail pre
  refine ⟨q, ?_⟩
  unfold pyStrip
  rw [hq, List.reverse_append]
  have hrev : notAvailTail.reverse = 'e' :: "lbaliava ton txet".toList := by decide
  rw [hrev, List.cons_append, List.dropWhile_cons, if_neg (by decide)]
  rw [← List.cons_append, List.reverse_append, List.reverse_reverse, ← hrev,
    List.reverse_reverse]

/-- Any title classified together with the placeholder summary
`Text not available` is tagged `technology`: the technology keyword `ai`
occurs inside the word `available`, and the combined text is always at least
18 characters after stripping. -/
lemma tech_in_categorize (title : String) :
    "technology" ∈ categorize_bill title "Text not available" := by
  have htext : pyLower (title ++ " " ++ "Text not available").toList
      = pyLower title.data ++ ' ' :: notAvailTail := by
    show pyLower (title ++ " " ++ "Text not available").data
        = pyLower title.data ++ ' ' :: notAvailTail
    rw [String.data_append, String.data_append]
    simp only [pyLower, List.map_append]
    rw [List.append_assoc]
    congr 1
  obtain ⟨q, hq⟩ := pyStrip_append_notAvail (pyLower title.data)
  have hlen : ¬ (pyStrip (pyLower (title ++ " " ++ "Text not available").toList)).length < 10 := by
    rw [htext, hq, List.length_append]
    have h18 : notAvailTail.length = 18 := by decide
    omega
  have hempty : (pyLower (title ++ " " ++ "Text not available").toList).isEmpty = false := by
    rw [htext]
    cases pyLower title.data <;> rfl
  have hocc : occurs "ai".toList
      (pyLower (title ++ " " ++ "Text not available").toList) = true := by
    rw [htext]
    exact occurs_append_left _ _ _ (by decide)
  have hkw : ("technology",
      ["technology", "tech", "digital", "internet", "cyber", "data", "privacy",
       "artificial intelligence", "ai", "computer", "software", "hardware",
       "innovation"]) ∈ TOPIC_KEYWORDS := by decide
  have hany : (["technology", "tech", "digital", "internet", "cyber", "data", "privacy",
      "artificial intelligence", "ai", "computer", "software", "hardware",
      "innovation"].any (fun kw => occurs kw.toList
        (pyLower (title ++ " " ++ "Text not available").toList))) = true := by
    rw [List.any_eq_true]
    exact ⟨"ai", by decide, hocc⟩
  have hmem := mem_topicsFor TOPIC_KEYWORDS
    (pyLower (title ++ " " ++ "Text not available").toList) "technology" _ hkw hany
  simp only [categorize_bill]
  rw [if_neg (by simp only [hempty, Bool.false_or, decide_eq_true_eq]; exact hlen)]
  cases htop : topicsFor TOPIC_KEYWORDS
      (pyLower (title ++ " " ++ "Text not available").toList) with
  | nil => rw [htop] at hmem; simp at hmem
  | cons a l =>
      rw [htop] at hmem
      simpa using hmem

/-- C10: every raw bill record processed by the detailed normalization path
`process_congress_bill` — whatever its title and whatever the detail fetch
returns — carries the topic `technology`, because the classifier sees the
fixed placeholder summary `Text not available`, whose word `available`
contains the technology keyword `ai` as a substring, and the combined text is
always at least 10 characters long. -/
theorem c10_technology_always_tagged (raw : RawBill) (detail : Option BillDetail) :
    "technology" ∈ (process_congress_bill detail raw).topics :=
  tech_in_categorize (pyGet raw.title "")

end YPP
